import Mathlib

/-!
Shallow embedding of the StrokesofKashi art-gallery application (src/app.py),
a Flask + SQLAlchemy CRUD storefront with three record types (User, Category,
Painting), public catalog handlers and session-guarded admin handlers.

Modelling conventions:
* The relational store is a `DB` record holding the three tables as lists,
  each row carrying its integer primary key.
* Request sessions are `Option Nat` (the optional `user_id` entry).
* Form data is modelled as already-extracted records; the numeric `price`
  field (a Python float parsed by `float(...)` in the code) is modelled as a
  rational number, which is faithful for the equality/ordering facts proved
  here.
* Each Flask handler becomes a function from (session, db, arguments) to a
  `Response` together with the updated store (and updated session or flashed
  messages where the handler touches those).
* SQLAlchemy `Painting.query.get(pk)` / `filter_by` lookups become `find?`
  over the row lists; row updates through a fetched ORM object become a `map`
  that rewrites the row with the matching primary key; `order_by(desc)`
  becomes `List.insertionSort` with the descending-id relation; autoincrement
  primary keys are (max existing id) + 1.
-/

namespace StrokesOfKashi

/-- A row of the `user` table (src/app.py lines 23-26). -/
structure User where
  id : Nat
  username : String
  password_hash : String
deriving DecidableEq

/-- A row of the `category` table (src/app.py lines 34-39). -/
structure Category where
  id : Nat
  name : String
  featured_image_url : String
  is_featured : Bool
deriving DecidableEq

/-- A row of the `painting` table (src/app.py lines 41-48). -/
structure Painting where
  id : Nat
  title : String
  description : String
  price : Rat
  image_url : String
  is_sold : Bool
  category_id : Nat
deriving DecidableEq

/-- The relational store: the three tables of the schema. -/
structure DB where
  users : List User
  categories : List Category
  paintings : List Painting
deriving DecidableEq

/-- The session, holding the optional authenticated user id
(the code stores it under the key user_id). -/
abbrev Session := Option Nat

/-- The outcome of a handler: a redirect to a named endpoint, a rendered
template, a 404 response from get_or_404 / first_or_404, or falling off the
end of the handler body without reaching any return statement. -/
inductive Response where
  | redirect (endpoint : String)
  | render (template : String)
  | notFound
  | noResponse
deriving DecidableEq

/-- HTTP method of a request, for handlers registered for GET and POST. -/
inductive Method where
  | get
  | post
deriving DecidableEq

/-- Model of werkzeug's generate_password_hash (an external library, out of
scope of the repository): an injective one-way encoding of the password,
modelled as tagging it. -/
def generate_password_hash (password : String) : String :=
  "pbkdf2:" ++ password

/-- Model of werkzeug's check_password_hash: the stored hash matches exactly
the hash generated from the submitted password. -/
def check_password_hash (stored_hash password : String) : Bool :=
  stored_hash == generate_password_hash password

/-- The descending-identity order used by the home page
(order_by(Painting.id.desc()), src/app.py line 78). -/
def descId (a b : Painting) : Prop := b.id ≤ a.id

instance : DecidableRel descId := fun a b => Nat.decLe b.id a.id

instance : IsTotal Painting descId :=
  ⟨fun a b => Nat.le_total b.id a.id⟩

instance : IsTrans Painting descId :=
  ⟨fun _ _ _ hab hbc => Nat.le_trans hbc hab⟩

/-- home (src/app.py lines 75-79): the featured categories and the unsold
paintings in descending id order, as handed to the template. -/
def home (db : DB) : List Category × List Painting :=
  (db.categories.filter (fun c => c.is_featured),
   List.insertionSort descId (db.paintings.filter (fun p => !p.is_sold)))

/-- login, POST branch (src/app.py lines 95-112): looks up the User by
username; on a missing user or a failed password check, re-renders the form
with the one generic flash message and leaves the session alone; on success,
clears the session, stores the user id and redirects to the admin view.
Returns (response, new session, flashed messages). -/
def login (db : DB) (sess : Session) (username password : String) :
    Response × Session × List String :=
  match db.users.find? (fun u => u.username == username) with
  | none => (.render "login.html", sess, ["Invalid username or password."])
  | some user =>
      if check_password_hash user.password_hash password then
        (.redirect "admin", some user.id, [])
      else
        (.render "login.html", sess, ["Invalid username or password."])

/-- logout (src/app.py lines 114-117): clears the session unconditionally. -/
def logout (_sess : Session) : Response × Session :=
  (.redirect "home", none)

/-- is_admin (src/app.py lines 122-124): is a user_id present in the
session. -/
def is_admin (sess : Session) : Bool :=
  sess.isSome

/-- admin dashboard (src/app.py lines 126-133): guard, then render. The
store is returned unchanged (the handler only reads). -/
def admin (sess : Session) (db : DB) : Response × DB :=
  if !is_admin sess then (.redirect "login", db)
  else (.render "admin.html", db)

/-- The submitted add/edit-painting form, with price already parsed from
text to a number (float(price) in the code). -/
structure PaintingForm where
  title : String
  description : String
  price : Rat
  image_url : String
  category : String
deriving DecidableEq

/-- The submitted add/edit-category form; is_featured is the presence of
the checkbox field in the submission. -/
structure CategoryForm where
  name : String
  featured_image_url : String
  is_featured : Bool
deriving DecidableEq

/-- The autoincrement primary key SQLite assigns to a new painting row:
one more than the largest existing id. -/
def next_painting_id (db : DB) : Nat :=
  (db.paintings.foldl (fun m p => max m p.id) 0) + 1

/-- The autoincrement primary key SQLite assigns to a new category row. -/
def next_category_id (db : DB) : Nat :=
  (db.categories.foldl (fun m c => max m c.id) 0) + 1

/-- add_painting (src/app.py lines 135-158): guard; resolve the Category by
submitted name; if none matches, fall through to the redirect without
creating anything; otherwise insert a new Painting whose is_sold takes the
column default False (line 47) and whose category_id is the resolved
category's id. -/
def add_painting (sess : Session) (db : DB) (form : PaintingForm) :
    Response × DB :=
  if !is_admin sess then (.redirect "login", db)
  else
    match db.categories.find? (fun c => c.name == form.category) with
    | none => (.redirect "admin", db)
    | some category =>
        let new_painting : Painting :=
          { id := next_painting_id db
            title := form.title
            description := form.description
            price := form.price
            image_url := form.image_url
            is_sold := false
            category_id := category.id }
        (.redirect "admin", { db with paintings := db.paintings ++ [new_painting] })

/-- add_category (src/app.py lines 160-176): guard, then insert the new
Category row. -/
def add_category (sess : Session) (db : DB) (form : CategoryForm) :
    Response × DB :=
  if !is_admin sess then (.redirect "login", db)
  else
    let new_category : Category :=
      { id := next_category_id db
        name := form.name
        featured_image_url := form.featured_image_url
        is_featured := form.is_featured }
    (.redirect "admin", { db with categories := db.categories ++ [new_category] })

/-- The per-row update performed by the POST branch of edit_painting on the
fetched painting: overwrite the four mutable fields with the submitted
values and take the resolved category's id when the name resolved. -/
def editRow (painting_id : Nat) (form : PaintingForm) (category? : Option Category)
    (p : Painting) : Painting :=
  if p.id == painting_id then
    { p with
        title := form.title
        description := form.description
        price := form.price
        image_url := form.image_url
        category_id := (category?.map (fun c => c.id)).getD p.category_id }
  else p

/-- edit_painting (src/app.py lines 178-200): guard; get_or_404 by id; on
POST overwrite title, description, price and image_url with the submitted
values, re-resolve the Category by submitted name and update category_id
only when a Category of that name exists; on GET render the form. -/
def edit_painting (sess : Session) (db : DB) (painting_id : Nat)
    (method : Method) (form : PaintingForm) : Response × DB :=
  if !is_admin sess then (.redirect "login", db)
  else
    match db.paintings.find? (fun p => p.id == painting_id) with
    | none => (.notFound, db)
    | some _ =>
        match method with
        | .get => (.render "edit_painting.html", db)
        | .post =>
            let category? := db.categories.find? (fun c => c.name == form.category)
            (.redirect "admin",
             { db with paintings := db.paintings.map (editRow painting_id form category?) })

/-- delete_painting (src/app.py lines 202-210): guard; get_or_404 by id;
delete the row. -/
def delete_painting (sess : Session) (db : DB) (painting_id : Nat) :
    Response × DB :=
  if !is_admin sess then (.redirect "login", db)
  else
    match db.paintings.find? (fun p => p.id == painting_id) with
    | none => (.notFound, db)
    | some _ =>
        (.redirect "admin",
         { db with paintings := db.paintings.filter (fun p => !(p.id == painting_id)) })

/-- The per-row update performed by toggle_sold on the fetched painting. -/
def toggleRow (painting_id : Nat) (p : Painting) : Painting :=
  if p.id == painting_id then { p with is_sold := !p.is_sold } else p

/-- toggle_sold (src/app.py lines 212-220): guard; get_or_404 by id; flip
is_sold on that row. -/
def toggle_sold (sess : Session) (db : DB) (painting_id : Nat) :
    Response × DB :=
  if !is_admin sess then (.redirect "login", db)
  else
    match db.paintings.find? (fun p => p.id == painting_id) with
    | none => (.notFound, db)
    | some _ =>
        (.redirect "admin",
         { db with paintings := db.paintings.map (toggleRow painting_id) })

/-- edit_category (src/app.py lines 230-245): guard; get_or_404 by id; on
POST overwrite name, featured_image_url and is_featured; on GET render the
form. The statements at lines 247-253 sit after the unconditional return of
line 245 and are unreachable dead code, so they are not modelled. -/
def edit_category (sess : Session) (db : DB) (category_id : Nat)
    (method : Method) (form : CategoryForm) : Response × DB :=
  if !is_admin sess then (.redirect "login", db)
  else
    match db.categories.find? (fun c => c.id == category_id) with
    | none => (.notFound, db)
    | some _ =>
        match method with
        | .get => (.render "edit_category.html", db)
        | .post =>
            (.redirect "admin",
             { db with
                categories := db.categories.map (fun c =>
                  if c.id == category_id then
                    { c with
                        name := form.name
                        featured_image_url := form.featured_image_url
                        is_featured := form.is_featured }
                  else c) })

/-- delete_category (src/app.py lines 223-253) as the code actually stands:
the reachable statements are the auth guard and the get_or_404 lookup only.
The body of edit_category was pasted into the middle of this function, so
the db.session.delete / db.session.commit calls at lines 249-250 lie after
the unconditional returns of the interleaved edit_category definition and
are never executed (the stray indented decorator at line 230 additionally
makes the module fail to parse as Python). After the lookup succeeds, the
handler body ends without deleting anything and without reaching a return
statement. -/
def delete_category (sess : Session) (db : DB) (category_id : Nat) :
    Response × DB :=
  if !is_admin sess then (.redirect "login", db)
  else
    match db.categories.find? (fun c => c.id == category_id) with
    | none => (.notFound, db)
    | some _ => (.noResponse, db)

/-! ### Concrete fixtures used by counterexamples and witnesses -/

/-- The bootstrap administrator created by the create-admin CLI command. -/
def adminUser : User :=
  { id := 1, username := "admin", password_hash := generate_password_hash "admin123" }

def landscapes : Category :=
  { id := 1, name := "Landscapes", featured_image_url := "landscapes.jpg", is_featured := true }

def portraits : Category :=
  { id := 2, name := "Portraits", featured_image_url := "portraits.jpg", is_featured := false }

def dawn : Painting :=
  { id := 1, title := "Dawn", description := "sunrise", price := 120,
    image_url := "dawn.jpg", is_sold := false, category_id := 1 }

def dusk : Painting :=
  { id := 2, title := "Dusk", description := "sunset", price := 80,
    image_url := "dusk.jpg", is_sold := true, category_id := 1 }

/-- A small populated store: one admin, a featured and a non-featured
category, one unsold and one sold painting, both owned by category 1. -/
def sampleDB : DB :=
  { users := [adminUser], categories := [landscapes, portraits],
    paintings := [dawn, dusk] }

/-! ### Helper lemmas -/

theorem toggleRow_id (pid : Nat) (p : Painting) : (toggleRow pid p).id = p.id := by
  unfold toggleRow
  split <;> rfl

theorem editRow_id (pid : Nat) (form : PaintingForm) (category? : Option Category)
    (p : Painting) : (editRow pid form category? p).id = p.id := by
  unfold editRow
  split <;> rfl

/-- Searching by primary key commutes with a row update that preserves the
primary key. -/
theorem find?_map_of_id {f : Painting → Painting} (hid : ∀ p, (f p).id = p.id)
    (pid : Nat) (l : List Painting) :
    (l.map f).find? (fun p => p.id == pid) = (l.find? (fun p => p.id == pid)).map f := by
  induction l with
  | nil => rfl
  | cons q l ih =>
      by_cases h : q.id = pid
      · simp [List.find?_cons, hid, h]
      · simp [List.find?_cons, hid, h, ih]

theorem toggleRow_toggleRow (pid : Nat) (p : Painting) :
    toggleRow pid (toggleRow pid p) = p := by
  unfold toggleRow
  by_cases h : p.id = pid
  · subst h
    simp
  · simp [h]

theorem map_toggleRow_toggleRow (pid : Nat) (l : List Painting) :
    l.map (toggleRow pid ∘ toggleRow pid) = l := by
  induction l with
  | nil => rfl
  | cons q l ih => simp [Function.comp, toggleRow_toggleRow, ih]

/-! ### Claims -/

/-- C1 (code_bug evidence): on a store holding category 1 and a painting
referencing it, an authenticated delete_category on category 1 leaves the
store exactly as it was: the category is found (the operation was not
rejected), yet both the category and its dependent painting remain. The
delete/commit statements of the source are unreachable dead code. -/
theorem delete_category_deletes_nothing :
    (delete_category (some 1) sampleDB 1).2 = sampleDB ∧
    sampleDB.categories.find? (fun c => c.id == 1) = some landscapes ∧
    ((delete_category (some 1) sampleDB 1).2.categories.filter (fun c => c.id == 1)).length = 1 ∧
    ((delete_category (some 1) sampleDB 1).2.paintings.filter (fun p => p.category_id == 1)).length = 2 := by
  exact ⟨rfl, rfl, rfl, rfl⟩

/-- C2: applying toggle_sold twice to the same painting id restores the
whole store, hence every painting's is_sold flag, to its original value. -/
theorem toggle_sold_involutive (sess : Session) (db : DB) (pid : Nat) :
    (toggle_sold sess (toggle_sold sess db pid).2 pid).2 = db := by
  unfold toggle_sold
  by_cases hs : is_admin sess
  · cases hfind : db.paintings.find? (fun p => p.id == pid) with
    | none => simp [hs, hfind]
    | some p =>
        simp [hs, hfind, find?_map_of_id (toggleRow_id pid) pid,
              map_toggleRow_toggleRow]
  · simp [hs]

/-- C4: with a session holding no user id, every admin-only handler
(dashboard, add/edit/delete painting, add/edit/delete category, toggle
sold) redirects to the login endpoint and returns the store unchanged. -/
theorem admin_guard_blocks_unauthenticated (db : DB) (pid cid : Nat) (m : Method)
    (pform : PaintingForm) (cform : CategoryForm) :
    admin none db = (.redirect "login", db) ∧
    add_painting none db pform = (.redirect "login", db) ∧
    add_category none db cform = (.redirect "login", db) ∧
    edit_painting none db pid m pform = (.redirect "login", db) ∧
    delete_painting none db pid = (.redirect "login", db) ∧
    toggle_sold none db pid = (.redirect "login", db) ∧
    edit_category none db cid m cform = (.redirect "login", db) ∧
    delete_category none db cid = (.redirect "login", db) :=
  ⟨rfl, rfl, rfl, rfl, rfl, rfl, rfl, rfl⟩

/-- Under the schema's unique-username invariant, the member of the table
carrying the searched username is exactly what find? returns. -/
theorem find?_user_eq_of_mem (l : List User) (username : String)
    (huniq : l.Pairwise (fun a b => a.username ≠ b.username))
    (u : User) (hmem : u ∈ l) (hname : u.username = username) :
    l.find? (fun v => v.username == username) = some u := by
  induction l with
  | nil => cases hmem
  | cons v l ih =>
      rcases List.mem_cons.mp hmem with rfl | hmem2
      · simp [List.find?_cons, hname]
      · have hne : v.username ≠ username := by
          have hvu := (List.pairwise_cons.mp huniq).1 u hmem2
          rw [hname] at hvu
          exact hvu
        simpa [List.find?_cons, hne] using
          ih (List.pairwise_cons.mp huniq).2 hmem2

/-- C3: the home page consists of exactly the featured categories and
exactly the unsold paintings, the latter sorted in descending id order; in
particular no sold painting is returned. -/
theorem home_spec (db : DB) :
    (∀ c : Category, c ∈ (home db).1 ↔ c ∈ db.categories ∧ c.is_featured = true) ∧
    (∀ p : Painting, p ∈ (home db).2 ↔ p ∈ db.paintings ∧ p.is_sold = false) ∧
    List.Sorted descId (home db).2 ∧
    (∀ p ∈ (home db).2, ¬ p.is_sold = true) := by
  refine ⟨?_, ?_, ?_, ?_⟩
  · intro c
    simp [home, List.mem_filter]
  · intro p
    simp [home, List.mem_insertionSort, List.mem_filter]
  · exact List.sorted_insertionSort descId _
  · intro p hp
    have hmem : p ∈ db.paintings ∧ p.is_sold = false := by
      simpa [home, List.mem_insertionSort, List.mem_filter] using hp
    simp [hmem.2]

/-- C5: login succeeds (redirecting to the admin view with the found user's
id stored in the fresh session) exactly when a user with the submitted
username exists and the password matches that user's stored hash; on any
failure it re-renders the form with the one generic message and leaves the
session unchanged. Stated under the schema's unique-username invariant. -/
theorem login_spec (db : DB) (sess : Session) (username password : String)
    (huniq : db.users.Pairwise (fun a b => a.username ≠ b.username)) :
    ((login db sess username password).1 = Response.redirect "admin" ↔
      ∃ u ∈ db.users, u.username = username ∧
        check_password_hash u.password_hash password = true) ∧
    (∀ u ∈ db.users, u.username = username →
      check_password_hash u.password_hash password = true →
      login db sess username password = (.redirect "admin", some u.id, [])) ∧
    ((login db sess username password).1 ≠ Response.redirect "admin" →
      login db sess username password =
        (.render "login.html", sess, ["Invalid username or password."])) := by
  rcases hfind : db.users.find? (fun v => v.username == username) with _ | u
  · have hnone : ∀ v ∈ db.users, v.username ≠ username := by
      intro v hv
      have := List.find?_eq_none.mp hfind v hv
      simpa using this
    refine ⟨?_, ?_, ?_⟩
    · simp only [login, hfind]
      constructor
      · intro h
        cases h
      · rintro ⟨u, hu, hname, -⟩
        exact absurd hname (hnone u hu)
    · intro u hu hname _
      exact absurd hname (hnone u hu)
    · intro _
      simp [login, hfind]
  · have hmem : u ∈ db.users := List.mem_of_find?_eq_some hfind
    have huser : u.username = username := by
      simpa using List.find?_some hfind
    by_cases hck : check_password_hash u.password_hash password
    · refine ⟨?_, ?_, ?_⟩
      · simp only [login, hfind, hck, if_true]
        exact iff_of_true trivial ⟨u, hmem, huser, hck⟩
      · intro u2 hu2 hname2 hck2
        have : db.users.find? (fun v => v.username == username) = some u2 :=
          find?_user_eq_of_mem db.users username huniq u2 hu2 hname2
        rw [hfind] at this
        cases this
        simp [login, hfind, hck]
      · intro h
        exact absurd (by simp [login, hfind, hck]) h
    · refine ⟨?_, ?_, ?_⟩
      · simp only [login, hfind, hck, if_false]
        constructor
        · intro h
          cases h
        · rintro ⟨u2, hu2, hname2, hck2⟩
          have : db.users.find? (fun v => v.username == username) = some u2 :=
            find?_user_eq_of_mem db.users username huniq u2 hu2 hname2
          rw [hfind] at this
          cases this
          exact absurd hck2 hck
      · intro u2 hu2 hname2 hck2
        have : db.users.find? (fun v => v.username == username) = some u2 :=
          find?_user_eq_of_mem db.users username huniq u2 hu2 hname2
        rw [hfind] at this
        cases this
        exact absurd hck2 hck
      · intro _
        simp [login, hfind, hck]

/-- C5 witness: on the sample store, logging in as the bootstrap admin with
the bootstrap password succeeds and stores user id 1 in the session. -/
theorem login_spec_witness :
    login sampleDB none "admin" "admin123" =
      (.redirect "admin", some 1, []) :=
  (login_spec sampleDB none "admin" "admin123" (by decide)).2.1 adminUser
    (by simp [sampleDB]) rfl (by decide)

/-- C6: an authenticated add-painting submission whose category name matches
no Category leaves the store untouched (silent drop, straight redirect);
when the name matches, exactly one new Painting referencing the matched
Category is appended, with the autoincrement id and the default unsold
flag. -/
theorem add_painting_spec (sess : Session) (db : DB) (form : PaintingForm)
    (hadmin : is_admin sess = true) :
    (db.categories.find? (fun c => c.name == form.category) = none →
      add_painting sess db form = (.redirect "admin", db)) ∧
    (∀ c, db.categories.find? (fun c2 => c2.name == form.category) = some c →
      (add_painting sess db form).2 =
        { db with
            paintings := db.paintings ++
              [{ id := next_painting_id db
                 title := form.title
                 description := form.description
                 price := form.price
                 image_url := form.image_url
                 is_sold := false
                 category_id := c.id }] }) := by
  constructor
  · intro hnone
    simp [add_painting, hadmin, hnone]
  · intro c hsome
    simp [add_painting, hadmin, hsome]

/-- The painting form used by the witnesses: a well-formed submission whose
category name resolves to the Portraits category of the sample store. -/
def newForm : PaintingForm :=
  { title := "Noon", description := "midday", price := 200,
    image_url := "noon.jpg", category := "Portraits" }

/-- C6 witness: on the sample store the submission is appended as painting 3
owned by category 2. -/
theorem add_painting_spec_witness :
    (add_painting (some 1) sampleDB newForm).2 =
      { sampleDB with
          paintings := sampleDB.paintings ++
            [{ id := 3, title := "Noon", description := "midday", price := 200,
               image_url := "noon.jpg", is_sold := false, category_id := 2 }] } := by
  have h := (add_painting_spec (some 1) sampleDB newForm rfl).2 portraits (by decide)
  rw [h]
  decide

/-- Unfolding of the edit-painting row update on the targeted row. -/
theorem editRow_eq (pid : Nat) (form : PaintingForm) (cat? : Option Category)
    (p : Painting) (h : (p.id == pid) = true) :
    editRow pid form cat? p =
      { p with
          title := form.title
          description := form.description
          price := form.price
          image_url := form.image_url
          category_id := (cat?.map (fun c => c.id)).getD p.category_id } := by
  simp [editRow, h]

/-- C7: an authenticated edit-painting POST on an existing painting leaves a
row with the same id whose title, description, price and image_url are the
submitted values, and whose category reference is the resolved category's id
when the submitted name matches, and the old reference otherwise. -/
theorem edit_painting_post_spec (sess : Session) (db : DB) (pid : Nat)
    (form : PaintingForm) (p : Painting)
    (hadmin : is_admin sess = true)
    (hfind : db.paintings.find? (fun q => q.id == pid) = some p) :
    ∃ p', (edit_painting sess db pid .post form).2.paintings.find?
        (fun q => q.id == pid) = some p' ∧
      p'.title = form.title ∧ p'.description = form.description ∧
      p'.price = form.price ∧ p'.image_url = form.image_url ∧
      (db.categories.find? (fun c => c.name == form.category) = none →
        p'.category_id = p.category_id) ∧
      (∀ c, db.categories.find? (fun c2 => c2.name == form.category) = some c →
        p'.category_id = c.id) := by
  have hpid : (p.id == pid) = true := by
    have h0 : p.id = pid := by simpa using List.find?_some hfind
    simpa using h0
  refine ⟨editRow pid form (db.categories.find? (fun c => c.name == form.category)) p,
          ?_, ?_, ?_, ?_, ?_, ?_, ?_⟩
  · have hpost : (edit_painting sess db pid .post form).2.paintings =
        db.paintings.map
          (editRow pid form (db.categories.find? (fun c => c.name == form.category))) := by
      simp [edit_painting, hadmin, hfind]
    rw [hpost, find?_map_of_id (editRow_id pid form _) pid, hfind]
    rfl
  · rw [editRow_eq pid form _ p hpid]
  · rw [editRow_eq pid form _ p hpid]
  · rw [editRow_eq pid form _ p hpid]
  · rw [editRow_eq pid form _ p hpid]
  · intro hnone
    rw [editRow_eq pid form _ p hpid, hnone]
    rfl
  · intro c hsome
    rw [editRow_eq pid form _ p hpid, hsome]
    rfl

/-- C7 witness: editing painting 1 of the sample store with the Noon form
re-homes it under category 2 (Portraits). -/
theorem edit_painting_post_spec_witness :
    ((edit_painting (some 1) sampleDB 1 .post newForm).2.paintings.find?
        (fun q => q.id == 1)).map (fun p => p.category_id) = some portraits.id := by
  obtain ⟨p', h1, -, -, -, -, -, h7⟩ :=
    edit_painting_post_spec (some 1) sampleDB 1 newForm dawn rfl (by decide)
  rw [h1]
  simp [h7 portraits (by decide)]

/-- A well-formed submission carrying a negative price, which the handler
accepts unvalidated. -/
def negForm : PaintingForm :=
  { title := "Void", description := "negative", price := -5,
    image_url := "void.jpg", category := "Landscapes" }

/-- C8 counterexample: the authenticated add-painting handler accepts a
submission with price -5 and stores a painting with negative price, so the
non-negativity invariant claimed for the store is violated by an accepted
submission. -/
theorem add_painting_accepts_negative_price :
    ¬ (∀ p ∈ (add_painting (some 1) sampleDB negForm).2.paintings, 0 ≤ p.price) := by
  decide

/-- C8 amended: the handlers copy the submitted price unvalidated, so
non-negativity is preserved exactly for non-negative submissions: if every
stored painting has non-negative price and the submitted price is
non-negative, every painting after add-painting or edit-painting still has
non-negative price. -/
theorem price_nonneg_preservation (sess : Session) (db : DB) (form : PaintingForm)
    (pid : Nat) (m : Method)
    (hform : 0 ≤ form.price)
    (hdb : ∀ p ∈ db.paintings, 0 ≤ p.price) :
    (∀ p ∈ (add_painting sess db form).2.paintings, 0 ≤ p.price) ∧
    (∀ p ∈ (edit_painting sess db pid m form).2.paintings, 0 ≤ p.price) := by
  constructor
  · intro p hp
    unfold add_painting at hp
    split at hp
    · exact hdb p hp
    · split at hp
      · exact hdb p hp
      · rcases List.mem_append.mp hp with h | h
        · exact hdb p h
        · rcases List.mem_singleton.mp h with rfl
          exact hform
  · intro p hp
    unfold edit_painting at hp
    split at hp
    · exact hdb p hp
    · split at hp
      · exact hdb p hp
      · split at hp
        · exact hdb p hp
        · rcases List.mem_map.mp hp with ⟨q, hq, rfl⟩
          unfold editRow
          split
          · exact hform
          · exact hdb q hq

/-- C8 witness: after adding the non-negative Noon submission to the sample
store, every stored painting still has a non-negative price. -/
theorem price_nonneg_preservation_witness :
    (add_painting (some 1) sampleDB newForm).2.paintings.all
      (fun p => decide (0 ≤ p.price)) = true := by
  have h := (price_nonneg_preservation (some 1) sampleDB newForm 1 .post
    (by decide) (by decide)).1
  rw [List.all_eq_true]
  intro p hp
  exact decide_eq_true (h p hp)

/-- C9: a painting created by an authenticated add-painting submission with
a resolvable category starts unsold, and is therefore listed by the home
page of the resulting store. -/
theorem add_painting_starts_unsold (sess : Session) (db : DB) (form : PaintingForm)
    (c : Category)
    (hadmin : is_admin sess = true)
    (hcat : db.categories.find? (fun c2 => c2.name == form.category) = some c) :
    ∃ np, (add_painting sess db form).2.paintings = db.paintings ++ [np] ∧
      np.is_sold = false ∧ np ∈ (home (add_painting sess db form).2).2 := by
  refine ⟨{ id := next_painting_id db, title := form.title,
            description := form.description, price := form.price,
            image_url := form.image_url, is_sold := false,
            category_id := c.id }, ?_, rfl, ?_⟩
  · simp [add_painting, hadmin, hcat]
  · simp [home, List.mem_insertionSort, List.mem_filter, add_painting, hadmin, hcat]

/-- C9 witness: the last painting of the store produced by adding the Noon
submission to the sample store is unsold. -/
theorem add_painting_starts_unsold_witness :
    ((add_painting (some 1) sampleDB newForm).2.paintings.getLast?).map
      (fun p => p.is_sold) = some false := by
  obtain ⟨np, h1, h2, -⟩ :=
    add_painting_starts_unsold (some 1) sampleDB newForm portraits rfl (by decide)
  rw [h1]
  simp [List.getLast?_concat, h2]

/-- The row update of toggle_sold keeps every field except is_sold, and
keeps is_sold too on rows whose id is not the targeted one. -/
theorem toggleRow_frame (pid : Nat) (p : Painting) :
    (toggleRow pid p).id = p.id ∧ (toggleRow pid p).title = p.title ∧
    (toggleRow pid p).description = p.description ∧
    (toggleRow pid p).price = p.price ∧
    (toggleRow pid p).image_url = p.image_url ∧
    (toggleRow pid p).category_id = p.category_id ∧
    (p.id ≠ pid → (toggleRow pid p).is_sold = p.is_sold) := by
  unfold toggleRow
  by_cases h : p.id = pid
  · simp [h]
  · simp [h]

/-- C10: toggle_sold is a frame-respecting operation: the user and category
tables are returned unchanged, and the painting table keeps its rows in
place, each row keeping its id, title, description, price, image_url and
category reference, and every row other than the targeted id also keeping
its is_sold flag. -/
theorem toggle_sold_frame (sess : Session) (db : DB) (pid : Nat) :
    (toggle_sold sess db pid).2.users = db.users ∧
    (toggle_sold sess db pid).2.categories = db.categories ∧
    List.Forall₂
      (fun p q => q.id = p.id ∧ q.title = p.title ∧ q.description = p.description ∧
        q.price = p.price ∧ q.image_url = p.image_url ∧
        q.category_id = p.category_id ∧ (p.id ≠ pid → q.is_sold = p.is_sold))
      db.paintings (toggle_sold sess db pid).2.paintings := by
  have hrefl : ∀ l : List Painting, List.Forall₂
      (fun p q => q.id = p.id ∧ q.title = p.title ∧ q.description = p.description ∧
        q.price = p.price ∧ q.image_url = p.image_url ∧
        q.category_id = p.category_id ∧ (p.id ≠ pid → q.is_sold = p.is_sold))
      l l :=
    fun l => List.forall₂_same.mpr
      (fun x _ => ⟨rfl, rfl, rfl, rfl, rfl, rfl, fun _ => rfl⟩)
  by_cases hs : is_admin sess
  · rcases hfind : db.paintings.find? (fun p => p.id == pid) with _ | p
    · refine ⟨by simp [toggle_sold, hs, hfind], by simp [toggle_sold, hs, hfind], ?_⟩
      have hdb : (toggle_sold sess db pid).2 = db := by
        simp [toggle_sold, hs, hfind]
      rw [hdb]
      exact hrefl db.paintings
    · refine ⟨by simp [toggle_sold, hs, hfind], by simp [toggle_sold, hs, hfind], ?_⟩
      have hmap : (toggle_sold sess db pid).2.paintings =
          db.paintings.map (toggleRow pid) := by
        simp [toggle_sold, hs, hfind]
      rw [hmap, List.forall₂_map_right_iff]
      exact List.forall₂_same.mpr (fun x _ => toggleRow_frame pid x)
  · refine ⟨by simp [toggle_sold, hs], by simp [toggle_sold, hs], ?_⟩
    have hdb : (toggle_sold sess db pid).2 = db := by
      simp [toggle_sold, hs]
    rw [hdb]
    exact hrefl db.paintings

end StrokesOfKashi
